import Mathlib

/-!
Shallow embedding of `pkg/github/projects.go` from krsjen/github-mcp-server.

Go values decoded from JSON (`any` / `map[string]any`) are modelled by the
inductive `JValue`; Go slices by `List`; nil-able Go pointers by `Option`;
Go `int` by `Int`; Go strings by `String` (Go `strings.ToLower` is modelled
by the executable `goToLower`, which agrees with it on ASCII data).
-/

namespace Projects

/-- JSON values as decoded by Go `encoding/json` into `any`: objects become
`map[string]any`, arrays `[]any`, numbers `float64` (modelled here at their
integer points, the only ones the claims touch), strings, booleans and null. -/
inductive JValue where
  | null
  | bool (b : Bool)
  | num (n : Int)
  | str (s : String)
  | arr (elems : List JValue)
  | obj (fields : List (String × JValue))

/-- Constant `MaxProjectsPerPage = 50` from projects.go. -/
def MaxProjectsPerPage : Int := 50

/-- Constant `ProjectUpdateFailedError` from projects.go. -/
def ProjectUpdateFailedError : String := "failed to update a project item"

/-- Constant `ProjectAddFailedError` from projects.go. -/
def ProjectAddFailedError : String := "failed to add a project item"

/-- Constant `ProjectDeleteFailedError` from projects.go. -/
def ProjectDeleteFailedError : String := "failed to delete a project item"

/-- Constant `ProjectListFailedError` from projects.go. -/
def ProjectListFailedError : String := "failed to list project items"

/-- Go struct `projectV2Field` (field definition): id, node id, name,
declared data type, url, plus opaque auxiliary data (options for
single-select fields, configuration for iteration fields) and timestamps. -/
structure projectV2Field where
  ID : Option Int
  NodeID : String
  Name : String
  DataType : String
  URL : String
  Options : Option (List JValue)
  Configuration : Option JValue
  CreatedAt : Option String
  UpdatedAt : Option String

/-- Go struct `projectV2ItemFieldValue` (field value): id, name, declared
data type and an opaque value. -/
structure projectV2ItemFieldValue where
  ID : Option Int
  Name : String
  DataType : String
  Value : Option JValue

/-- Go `strings.ToLower`, character by character (`Char.toLower` agrees with
it on the ASCII data types this file compares). -/
def goToLower (s : String) : String :=
  String.mk (s.data.map Char.toLower)

/-- Method `(*projectV2Field).getDataType`: returns `""` on a nil receiver,
otherwise the lower-cased `DataType`. The receiver is a Go pointer, modelled
as `Option projectV2Field`. -/
def projectV2FieldGetDataType : Option projectV2Field → String
  | none => ""
  | some f => goToLower f.DataType

/-- Method `(*projectV2ItemFieldValue).getDataType`: returns `""` on a nil
receiver, otherwise the lower-cased `DataType`. -/
def projectV2ItemFieldValueGetDataType : Option projectV2ItemFieldValue → String
  | none => ""
  | some v => goToLower v.DataType

/-- The Go generic constraint `interface\x7b getDataType() string \x7d` of
`filterSpecialTypes`, as a one-method capability class. -/
class GetDataTypeCap (α : Type) where
  getDataType : α → String

instance instCapField : GetDataTypeCap (Option projectV2Field) :=
  ⟨projectV2FieldGetDataType⟩

instance instCapFieldValue : GetDataTypeCap (Option projectV2ItemFieldValue) :=
  ⟨projectV2ItemFieldValueGetDataType⟩

/-- The set `specialFieldDataTypes` from projects.go: data types whose values
live in the item's content object. Modelled as the list of its keys
(the Go value is a `map[string]struct\x7b\x7d` used only for membership). -/
def specialFieldDataTypes : List String :=
  ["assignees", "labels", "linked_pull_requests", "milestone",
   "parent_issue", "repository", "reviewers", "sub_issues_progress", "title"]

/-- `filterSpecialTypes`: returns the input slice unchanged when empty,
otherwise a new slice keeping, in order, exactly the records whose
`getDataType` is not in `specialFieldDataTypes`. -/
def filterSpecialTypes {α : Type} [GetDataTypeCap α] (fields : List α) : List α :=
  if fields.isEmpty then fields
  else fields.filter (fun f => !(specialFieldDataTypes.contains (GetDataTypeCap.getDataType f)))

/-- The arguments of a tool call that `extractPaginationOptions` looks at:
optional `per_page` number, optional `after` and `before` cursor strings. -/
structure PaginationRequest where
  perPage : Option Int
  after : Option String
  before : Option String

/-- Modelled from the spec: helper `OptionalIntParamWithDefault` (declared
outside projects.go) returns the default when the parameter is absent and
the supplied value otherwise ("absence means use server default",
default = 50). -/
def OptionalIntParamWithDefault (v : Option Int) (d : Int) : Int :=
  v.getD d

/-- Modelled from the spec: helper `OptionalParam[string]` (declared outside
projects.go) returns the empty string when the parameter is absent. -/
def OptionalStringParam (v : Option String) : String :=
  v.getD ""

/-- Go struct `paginationOptions` with url tags
`per_page,omitempty`, `after,omitempty`, `before,omitempty`. -/
structure paginationOptions where
  PerPage : Int
  After : String
  Before : String

/-- Go struct `filterQueryOptions` with url tag `q,omitempty`. -/
structure filterQueryOptions where
  Query : String

/-- Go struct `fieldSelectionOptions` with url tag `fields,omitempty`. -/
structure fieldSelectionOptions where
  Fields : String

/-- Go struct `listProjectItemsOptions`, embedding the three option groups. -/
structure listProjectItemsOptions extends
  paginationOptions, filterQueryOptions, fieldSelectionOptions

/-- `extractPaginationOptions`: reads `per_page` with default
`MaxProjectsPerPage`, clamps it down to `MaxProjectsPerPage` when larger,
and reads the `after` and `before` cursors. -/
def extractPaginationOptions (request : PaginationRequest) : paginationOptions :=
  let perPage := OptionalIntParamWithDefault request.perPage MaxProjectsPerPage
  let perPage := if perPage > MaxProjectsPerPage then MaxProjectsPerPage else perPage
  { PerPage := perPage
    After := OptionalStringParam request.after
    Before := OptionalStringParam request.before }

/-- Go struct `pageInfo` with json tags `hasNextPage`, `hasPreviousPage`,
`nextCursor,omitempty`, `prevCursor,omitempty`. -/
structure pageInfo where
  HasNextPage : Bool
  HasPreviousPage : Bool
  NextCursor : String
  PrevCursor : String

/-- The part of go-github `github.Response` the handlers read: HTTP status,
readable response body, and the `After` / `Before` cursor metadata. -/
structure GHResponse where
  StatusCode : Nat
  Body : String
  After : String
  Before : String

/-- `buildPageInfo`: has-next iff `resp.After` is non-empty, has-previous iff
`resp.Before` is non-empty, cursors copied through. -/
def buildPageInfo (resp : GHResponse) : pageInfo :=
  { HasNextPage := resp.After != ""
    HasPreviousPage := resp.Before != ""
    NextCursor := resp.After
    PrevCursor := resp.Before }

/-- `encoding/json` marshalling of `pageInfo` as an ordered key list: the two
booleans are always emitted, the cursor keys only when non-empty
(`omitempty`). -/
def marshalPageInfo (pi : pageInfo) : List (String × JValue) :=
  [("hasNextPage", JValue.bool pi.HasNextPage),
   ("hasPreviousPage", JValue.bool pi.HasPreviousPage)]
  ++ (if pi.NextCursor = "" then [] else [("nextCursor", JValue.str pi.NextCursor)])
  ++ (if pi.PrevCursor = "" then [] else [("prevCursor", JValue.str pi.PrevCursor)])

/-- Split a string at the first occurrence of `c`: the part before it and the
part after it (the separator removed); the whole string and `""` when `c`
does not occur. Used to model how `net/url.Parse` cuts off the fragment and
the query of a relative reference. -/
def splitFirst (s : String) (c : Char) : String × String :=
  let p := s.data.span (fun d => d != c)
  (String.mk p.1, String.mk (p.2.drop 1))

/-- Characters that `net/url` keeps verbatim in the path and fragment of a
relative reference (unreserved characters and the sub-delimiters its
escaping rules leave alone; `%`, `:` and quote are excluded so that no
re-escaping or scheme parsing can occur on accepted inputs). -/
def isVerbatimURLChar (c : Char) : Bool :=
  c.isAlphanum ||
    ['-', '_', '.', '~', '!', '$', '&', '(', ')', '*', '+', ',', ';', '=', '@', '/', '[', ']'].contains c

/-- The components of a parsed relative URL reference: path, raw query and
fragment, as in Go `url.URL`. -/
structure URLRef where
  path : String
  rawQuery : String
  fragment : String

/-- Models `net/url.Parse` on the relative references the handlers build:
the fragment is cut at the first `#`, the query at the first `?`, and the
remaining components must consist of characters that Go neither escapes nor
reinterprets, so that `URL.String` reproduces them verbatim; other strings
(which Go may accept after re-escaping, or reject) are out of the model's
domain and map to `none`. -/
def parseURL (s : String) : Option URLRef :=
  let f := splitFirst s '#'
  let pq := splitFirst f.1 '?'
  if pq.1.data.all isVerbatimURLChar && pq.2.data.all isVerbatimURLChar
      && f.2.data.all isVerbatimURLChar then
    some { path := pq.1, rawQuery := pq.2, fragment := f.2 }
  else
    none

/-- Models `url.URL.String` on the references produced by `parseURL`: path,
then `?query` when the raw query is non-empty, then `#fragment` when the
fragment is non-empty. -/
def urlRefToString (u : URLRef) : String :=
  u.path
  ++ (if u.rawQuery = "" then "" else "?" ++ u.rawQuery)
  ++ (if u.fragment = "" then "" else "#" ++ u.fragment)

/-- Upper-case hexadecimal digit for `n < 16`, as `net/url` uses in percent
escapes. -/
def hexDigitChar (n : Nat) : Char :=
  if n < 10 then Char.ofNat (48 + n) else Char.ofNat (55 + n)

/-- UTF-8 encoding of one character as its byte values; `net/url` percent
escapes operate on these bytes. -/
def utf8Bytes (c : Char) : List Nat :=
  let n := c.toNat
  if n < 0x80 then [n]
  else if n < 0x800 then [0xC0 + n / 0x40, 0x80 + n % 0x40]
  else if n < 0x10000 then
    [0xE0 + n / 0x1000, 0x80 + (n / 0x40) % 0x40, 0x80 + n % 0x40]
  else
    [0xF0 + n / 0x40000, 0x80 + (n / 0x1000) % 0x40,
     0x80 + (n / 0x40) % 0x40, 0x80 + n % 0x40]

/-- `url.QueryEscape` on one character: unreserved characters are kept, a
space becomes `+`, everything else is percent-escaped byte by byte. -/
def queryEscapeChar (c : Char) : String :=
  if c.isAlphanum || c = '-' || c = '_' || c = '.' || c = '~' then
    String.singleton c
  else if c = ' ' then "+"
  else
    String.join ((utf8Bytes c).map (fun b =>
      String.mk ['%', hexDigitChar (b / 16), hexDigitChar (b % 16)]))

/-- `url.QueryEscape` on a string. -/
def queryEscape (s : String) : String :=
  String.join (s.data.map queryEscapeChar)

/-- Insert a key/value pair into a key-sorted list, keeping it sorted by key
(the order `url.Values.Encode` emits keys in). -/
def insertByKey (p : String × String) : List (String × String) → List (String × String)
  | [] => [p]
  | q :: qs => if q.1 < p.1 then q :: insertByKey p qs else p :: q :: qs

/-- Sort a key/value list by key, modelling the key sort in
`url.Values.Encode`. -/
def sortByKey : List (String × String) → List (String × String)
  | [] => []
  | p :: ps => insertByKey p (sortByKey ps)

/-- `url.Values.Encode` for the values produced by the option groups (all
keys distinct): keys sorted, each pair emitted as `escape(k)=escape(v)`,
joined with `&`. -/
def urlValuesEncode (vs : List (String × String)) : String :=
  String.intercalate "&"
    ((sortByKey vs).map (fun p => queryEscape p.1 ++ "=" ++ queryEscape p.2))

/-- `go-querystring` values of `paginationOptions`: `per_page` omitted when
zero, `after` and `before` omitted when empty (`omitempty`), in struct field
order. -/
def paginationQueryValues (p : paginationOptions) : List (String × String) :=
  (if p.PerPage = 0 then [] else [("per_page", toString p.PerPage)])
  ++ (if p.After = "" then [] else [("after", p.After)])
  ++ (if p.Before = "" then [] else [("before", p.Before)])

/-- `go-querystring` values of `filterQueryOptions`: `q` omitted when empty. -/
def filterQueryValues (f : filterQueryOptions) : List (String × String) :=
  if f.Query = "" then [] else [("q", f.Query)]

/-- `go-querystring` values of `fieldSelectionOptions`: `fields` omitted when
empty. -/
def fieldSelectionQueryValues (f : fieldSelectionOptions) : List (String × String) :=
  if f.Fields = "" then [] else [("fields", f.Fields)]

/-- `go-querystring` values of `listProjectItemsOptions`: the embedded
groups are flattened into one value set in embedding order. -/
def listProjectItemsQueryValues (o : listProjectItemsOptions) : List (String × String) :=
  paginationQueryValues o.topaginationOptions
  ++ filterQueryValues o.tofilterQueryOptions
  ++ fieldSelectionQueryValues o.tofieldSelectionOptions

/-- The `opts any` capability `addOptions` needs: what `go-querystring`
`query.Values` computes for the concrete option struct. -/
class QueryEncodable (α : Type) where
  queryValues : α → List (String × String)

instance instQEPagination : QueryEncodable paginationOptions :=
  ⟨paginationQueryValues⟩

instance instQEFilterQuery : QueryEncodable filterQueryOptions :=
  ⟨filterQueryValues⟩

instance instQEFieldSelection : QueryEncodable fieldSelectionOptions :=
  ⟨fieldSelectionQueryValues⟩

instance instQEListProjectItems : QueryEncodable listProjectItemsOptions :=
  ⟨listProjectItemsQueryValues⟩

/-- `addOptions`: a nil options pointer (`none`) returns the path unchanged;
otherwise the path is parsed, its raw query is replaced wholesale by the
encoding of the option values, and the URL is rendered back to a string; a
parse failure is returned as an error. -/
def addOptions {α : Type} [QueryEncodable α] (s : String) (opts : Option α) :
    Except String String :=
  match opts with
  | none => Except.ok s
  | some o =>
    match parseURL s with
    | none => Except.error ("failed to parse url: " ++ s)
    | some u =>
      Except.ok (urlRefToString
        { u with rawQuery := urlValuesEncode (QueryEncodable.queryValues o) })

/-- Go struct `newProjectItem` with json tags `id,omitempty`,
`type,omitempty` (the add-item request body). -/
structure newProjectItem where
  ID : Int
  Typ : String

/-- Go struct `updateProjectItem` with json tags `id`, `value` (one typed
field-update instruction; the value may be null to clear the field). -/
structure updateProjectItem where
  ID : Int
  Value : JValue

/-- Go struct `updateProjectItemPayload` with json tag `fields` (the
update-item request body: a list of field updates). -/
structure updateProjectItemPayload where
  Fields : List updateProjectItem

/-- `toNewProjectType`: lower-cases the item type and maps `issue` to
`Issue`, `pull_request` to `PullRequest`, anything else to `""`. -/
def toNewProjectType (projType : String) : String :=
  if goToLower projType = "issue" then "Issue"
  else if goToLower projType = "pull_request" then "PullRequest"
  else ""

/-- `buildUpdateProjectItem`: validates the untyped `updated_field` map
(`none` models a nil Go map): `id` must be present and numeric, `value`
must be present (it may be `null`); on success returns the typed payload. -/
def buildUpdateProjectItem (input : Option (List (String × JValue))) :
    Except String updateProjectItem :=
  match input with
  | none => Except.error "updated_field must be an object"
  | some m =>
    match m.lookup "id" with
    | none => Except.error "updated_field.id is required"
    | some idField =>
      match idField with
      | JValue.num n =>
        match m.lookup "value" with
        | none => Except.error "updated_field.value is required"
        | some valueField => Except.ok { ID := n, Value := valueField }
      | _ => Except.error "updated_field.id must be a number"

/-- `encoding/json` marshalling of one `updateProjectItem`: both keys are
always emitted (no `omitempty`); a Go nil value marshals as JSON null,
which `JValue.null` already is. -/
def marshalUpdateProjectItem (p : updateProjectItem) : JValue :=
  JValue.obj [("id", JValue.num p.ID), ("value", p.Value)]

/-- `encoding/json` marshalling of `updateProjectItemPayload`. -/
def marshalUpdatePayload (pl : updateProjectItemPayload) : JValue :=
  JValue.obj [("fields", JValue.arr (pl.Fields.map marshalUpdateProjectItem))]

/-- `encoding/json` marshalling of `newProjectItem`: `id` omitted when zero
and `type` omitted when empty (`omitempty`). -/
def marshalNewProjectItem (item : newProjectItem) : JValue :=
  JValue.obj
    ((if item.ID = 0 then [] else [("id", JValue.num item.ID)])
     ++ (if item.Typ = "" then [] else [("type", JValue.str item.Typ)]))

/-- The per-item URL `orgs/.../projectsV2/.../items/...` or
`users/.../projectsV2/.../items/...`, chosen on `ownerType == "org"`. -/
def projectItemURL (ownerType owner : String) (projectNumber itemID : Int) : String :=
  if ownerType = "org" then
    s!"orgs/{owner}/projectsV2/{projectNumber}/items/{itemID}"
  else
    s!"users/{owner}/projectsV2/{projectNumber}/items/{itemID}"

/-- The items-collection URL `orgs/.../projectsV2/.../items` or
`users/.../projectsV2/.../items`, chosen on `ownerType == "org"`. -/
def projectItemsURL (ownerType owner : String) (projectNumber : Int) : String :=
  if ownerType = "org" then
    s!"orgs/{owner}/projectsV2/{projectNumber}/items"
  else
    s!"users/{owner}/projectsV2/{projectNumber}/items"

/-- A request a handler is about to issue: method, target URL and optional
JSON body. -/
structure RequestSpec where
  method : String
  url : String
  body : Option JValue

/-- What the first (pre-transport) phase of a handler produces: either a
caller-visible error before any request is issued, or the request it will
issue. -/
inductive HandlerOutcome where
  | rejected (msg : String)
  | issued (req : RequestSpec)

/-- The pre-transport phase of the `update_project_item` handler after the
scalar parameters are extracted: checks that `updated_field` is present and
an object, validates it with `buildUpdateProjectItem`, and on success plans
a PATCH whose body wraps the payload as the sole element of the `fields`
list; every validation failure is surfaced before any request is issued.
The raw argument is the decoded JSON value of `updated_field`
(`none` when the key is absent). -/
def updateProjectItemPlan (owner ownerType : String) (projectNumber itemID : Int)
    (rawUpdatedField : Option JValue) : HandlerOutcome :=
  match rawUpdatedField with
  | none => HandlerOutcome.rejected "missing required parameter: updated_field"
  | some raw =>
    match raw with
    | JValue.obj m =>
      match buildUpdateProjectItem (some m) with
      | Except.error e => HandlerOutcome.rejected e
      | Except.ok payload =>
        HandlerOutcome.issued
          { method := "PATCH"
            url := projectItemURL ownerType owner projectNumber itemID
            body := some (marshalUpdatePayload { Fields := [payload] }) }
    | _ => HandlerOutcome.rejected "field_value must be an object"

/-- The pre-transport phase of the `add_project_item` handler after the
scalar parameters are extracted: rejects an `item_type` other than `issue`
or `pull_request` before any request is issued, otherwise plans a POST whose
body is the marshalled `newProjectItem`. -/
def addProjectItemPlan (owner ownerType : String) (projectNumber itemID : Int)
    (itemType : String) : HandlerOutcome :=
  if itemType ≠ "issue" ∧ itemType ≠ "pull_request" then
    HandlerOutcome.rejected "item_type must be either 'issue' or 'pull_request'"
  else
    HandlerOutcome.issued
      { method := "POST"
        url := projectItemsURL ownerType owner projectNumber
        body := some (marshalNewProjectItem
          { ID := itemID, Typ := toNewProjectType itemType }) }

/-- What a handler returns to the tool boundary: an error result
(`mcp.NewToolResultError`) or a text result (`mcp.NewToolResultText`). -/
inductive ToolResult where
  | errorResult (msg : String)
  | textResult (text : String)

/-- From go-github `CheckResponse`, which `client.Do` applies: a response
whose status is outside 200..299 makes `Do` return a non-nil error. -/
def responseIsError (resp : GHResponse) : Bool :=
  !(200 ≤ resp.StatusCode && resp.StatusCode ≤ 299)

/-- Modelled from the spec: `ghErrors.NewGitHubAPIErrorResponse` (declared
outside projects.go) surfaces a transport/API failure with the upstream
status and body captured in the failure message. -/
def apiErrorResult (opMsg : String) (resp : GHResponse) : ToolResult :=
  ToolResult.errorResult (opMsg ++ ": " ++ toString resp.StatusCode ++ ": " ++ resp.Body)

/-- The post-transport phase of `add_project_item`: a transport error (any
non-2xx status) is surfaced as an API-error result; a 2xx status other than
201 Created is surfaced as an error carrying the response body; only a 201
yields the marshalled added item. -/
def addProjectItemResult (resp : GHResponse) (marshalledItem : String) : ToolResult :=
  if responseIsError resp then apiErrorResult ProjectAddFailedError resp
  else if resp.StatusCode ≠ 201 then
    ToolResult.errorResult (ProjectAddFailedError ++ ": " ++ resp.Body)
  else ToolResult.textResult marshalledItem

/-- The post-transport phase of `update_project_item`: as for add, with
expected status 200 OK. -/
def updateProjectItemResult (resp : GHResponse) (marshalledItem : String) : ToolResult :=
  if responseIsError resp then apiErrorResult ProjectUpdateFailedError resp
  else if resp.StatusCode ≠ 200 then
    ToolResult.errorResult (ProjectUpdateFailedError ++ ": " ++ resp.Body)
  else ToolResult.textResult marshalledItem

/-- The post-transport phase of `delete_project_item`: expected status 204
No Content; success returns a fixed confirmation text. -/
def deleteProjectItemResult (resp : GHResponse) : ToolResult :=
  if responseIsError resp then apiErrorResult ProjectDeleteFailedError resp
  else if resp.StatusCode ≠ 204 then
    ToolResult.errorResult (ProjectDeleteFailedError ++ ": " ++ resp.Body)
  else ToolResult.textResult "project item successfully deleted"

/-- The post-transport phase of `list_project_items`: there is no explicit
status check in the handler; a transport error (any non-2xx status) is
surfaced as an API-error result and any 2xx response yields the marshalled
item list. -/
def listProjectItemsResult (resp : GHResponse) (marshalledResponse : String) : ToolResult :=
  if responseIsError resp then apiErrorResult ProjectListFailedError resp
  else ToolResult.textResult marshalledResponse

/-! ## Shared helper lemmas -/

/-- The empty-slice early return of `filterSpecialTypes` is behaviourally the
plain filter. -/
theorem filterSpecialTypes_eq_filter {α : Type} [GetDataTypeCap α] (l : List α) :
    filterSpecialTypes l =
      l.filter (fun f => !(specialFieldDataTypes.contains (GetDataTypeCap.getDataType f))) := by
  cases l <;> simp [filterSpecialTypes]

/-- On a parsed base path, `addOptions` replaces the raw query wholesale with
the encoded option values and keeps path and fragment. -/
theorem addOptions_parse_some {α : Type} [QueryEncodable α] (s : String) (u : URLRef)
    (o : α) (h : parseURL s = some u) :
    addOptions s (some o) = Except.ok (urlRefToString
      { path := u.path
        rawQuery := urlValuesEncode (QueryEncodable.queryValues o)
        fragment := u.fragment }) := by
  simp [addOptions, h]

/-! ## Claims -/

/-- C1: for every caller-supplied `per_page` value greater than 50 the
extracted pagination options carry page size exactly 50 (clamped, never
rejected); when `per_page` is absent the default is 50; and the extracted
page size is always at most 50 regardless of caller input. -/
theorem claim_C1_per_page_clamped :
    (∀ (r : PaginationRequest) (p : Int), r.perPage = some p →
      MaxProjectsPerPage < p →
      (extractPaginationOptions r).PerPage = MaxProjectsPerPage)
    ∧ (∀ r : PaginationRequest, r.perPage = none →
      (extractPaginationOptions r).PerPage = MaxProjectsPerPage)
    ∧ (∀ r : PaginationRequest,
      (extractPaginationOptions r).PerPage ≤ MaxProjectsPerPage) := by
  refine ⟨?_, ?_, ?_⟩
  · intro r p hp hgt
    simp [extractPaginationOptions, OptionalIntParamWithDefault, hp, hgt]
  · intro r hp
    simp [extractPaginationOptions, OptionalIntParamWithDefault, hp, MaxProjectsPerPage]
  · intro r
    unfold extractPaginationOptions OptionalIntParamWithDefault
    cases h : r.perPage
    · simp [MaxProjectsPerPage]
    · simp [MaxProjectsPerPage]
      split <;> omega

/-- Witness for C1 at concrete inputs: `per_page = 200` clamps to 50,
an absent `per_page` defaults to 50, and `per_page = 7` stays within 50. -/
theorem claim_C1_per_page_clamped_witness :
    (extractPaginationOptions { perPage := some 200, after := none, before := none }).PerPage
        = MaxProjectsPerPage
    ∧ (extractPaginationOptions { perPage := none, after := none, before := none }).PerPage
        = MaxProjectsPerPage
    ∧ (extractPaginationOptions { perPage := some 7, after := none, before := none }).PerPage
        ≤ MaxProjectsPerPage :=
  ⟨claim_C1_per_page_clamped.1 _ 200 rfl (by decide),
   claim_C1_per_page_clamped.2.1 _ rfl,
   claim_C1_per_page_clamped.2.2 _⟩

/-- C2: the field filter removes exactly the records whose lower-cased
data-type string is in the fixed closed set of special categories and
retains all others, uniformly over field definitions and field values via
the shared lower-cased data-type accessor. -/
theorem claim_C2_filter_special_membership :
    (∀ (l : List (Option projectV2Field)) (f : Option projectV2Field),
        f ∈ filterSpecialTypes l ↔
          f ∈ l ∧ projectV2FieldGetDataType f ∉ specialFieldDataTypes)
    ∧ (∀ (l : List (Option projectV2ItemFieldValue)) (v : Option projectV2ItemFieldValue),
        v ∈ filterSpecialTypes l ↔
          v ∈ l ∧ projectV2ItemFieldValueGetDataType v ∉ specialFieldDataTypes)
    ∧ (∀ f : projectV2Field,
        projectV2FieldGetDataType (some f) = goToLower f.DataType)
    ∧ (∀ v : projectV2ItemFieldValue,
        projectV2ItemFieldValueGetDataType (some v) = goToLower v.DataType)
    ∧ specialFieldDataTypes =
        ["assignees", "labels", "linked_pull_requests", "milestone", "parent_issue",
         "repository", "reviewers", "sub_issues_progress", "title"] := by
  refine ⟨?_, ?_, fun _ => rfl, fun _ => rfl, rfl⟩
  · intro l f
    simp [filterSpecialTypes_eq_filter, List.mem_filter, GetDataTypeCap.getDataType]
  · intro l v
    simp [filterSpecialTypes_eq_filter, List.mem_filter, GetDataTypeCap.getDataType]

/-- C3: the derived page info has has-next true iff the after token is
non-empty, has-previous true iff the before token is non-empty, copies both
cursors verbatim, and the serialized result carries the `nextCursor` /
`prevCursor` keys exactly when the corresponding flag is set. -/
theorem claim_C3_page_info :
    ∀ resp : GHResponse,
      ((buildPageInfo resp).HasNextPage = true ↔ resp.After ≠ "")
      ∧ ((buildPageInfo resp).HasPreviousPage = true ↔ resp.Before ≠ "")
      ∧ (buildPageInfo resp).NextCursor = resp.After
      ∧ (buildPageInfo resp).PrevCursor = resp.Before
      ∧ ("nextCursor" ∈ (marshalPageInfo (buildPageInfo resp)).map Prod.fst ↔
          (buildPageInfo resp).HasNextPage = true)
      ∧ ("prevCursor" ∈ (marshalPageInfo (buildPageInfo resp)).map Prod.fst ↔
          (buildPageInfo resp).HasPreviousPage = true) := by
  intro resp
  by_cases hA : resp.After = "" <;> by_cases hB : resp.Before = "" <;>
    simp [buildPageInfo, marshalPageInfo, hA, hB]

/-- C7: the field filter is idempotent, order-preserving (the output is a
sublist of the input) and maps the empty sequence to the empty sequence,
for both record shapes. -/
theorem claim_C7_filter_idempotent :
    (∀ l : List (Option projectV2Field),
        filterSpecialTypes (filterSpecialTypes l) = filterSpecialTypes l)
    ∧ (∀ l : List (Option projectV2Field), (filterSpecialTypes l).Sublist l)
    ∧ filterSpecialTypes ([] : List (Option projectV2Field)) = []
    ∧ (∀ l : List (Option projectV2ItemFieldValue),
        filterSpecialTypes (filterSpecialTypes l) = filterSpecialTypes l)
    ∧ (∀ l : List (Option projectV2ItemFieldValue), (filterSpecialTypes l).Sublist l)
    ∧ filterSpecialTypes ([] : List (Option projectV2ItemFieldValue)) = [] := by
  refine ⟨?_, ?_, rfl, ?_, ?_, rfl⟩
  · intro l; simp [filterSpecialTypes_eq_filter, List.filter_filter]
  · intro l; simp [filterSpecialTypes_eq_filter, List.filter_sublist]
  · intro l; simp [filterSpecialTypes_eq_filter, List.filter_filter]
  · intro l; simp [filterSpecialTypes_eq_filter, List.filter_sublist]

/-- C4: the update-payload builder succeeds with the typed payload exactly
when the map has a numeric `id` and a `value` key (null allowed, signalling
clear), fails with a validation error naming the offending key otherwise
(the five specified inputs behave as specified), and in the
update-item handler a validation failure is surfaced before any request is
issued. -/
theorem claim_C4_update_payload_validation :
    (∀ m : List (String × JValue),
        (∃ p, buildUpdateProjectItem (some m) = Except.ok p) ↔
          ((∃ n, m.lookup "id" = some (JValue.num n)) ∧ (∃ v, m.lookup "value" = some v)))
    ∧ (∀ (m : List (String × JValue)) (n : Int) (v : JValue),
        m.lookup "id" = some (JValue.num n) → m.lookup "value" = some v →
        buildUpdateProjectItem (some m) = Except.ok { ID := n, Value := v })
    ∧ (∀ m : List (String × JValue), m.lookup "id" = none →
        buildUpdateProjectItem (some m) = Except.error "updated_field.id is required")
    ∧ (∀ (m : List (String × JValue)) (x : JValue), m.lookup "id" = some x →
        (∀ n : Int, x ≠ JValue.num n) →
        buildUpdateProjectItem (some m) = Except.error "updated_field.id must be a number")
    ∧ (∀ (m : List (String × JValue)) (n : Int), m.lookup "id" = some (JValue.num n) →
        m.lookup "value" = none →
        buildUpdateProjectItem (some m) = Except.error "updated_field.value is required")
    ∧ buildUpdateProjectItem (some [("id", JValue.num 123), ("value", JValue.str "x")])
        = Except.ok { ID := 123, Value := JValue.str "x" }
    ∧ buildUpdateProjectItem (some [("id", JValue.num 123)])
        = Except.error "updated_field.value is required"
    ∧ buildUpdateProjectItem (some [("value", JValue.str "x")])
        = Except.error "updated_field.id is required"
    ∧ buildUpdateProjectItem (some [("id", JValue.str "abc"), ("value", JValue.num 1)])
        = Except.error "updated_field.id must be a number"
    ∧ buildUpdateProjectItem (some [("id", JValue.num 1), ("value", JValue.null)])
        = Except.ok { ID := 1, Value := JValue.null }
    ∧ (∀ (owner ownerType : String) (projectNumber itemID : Int)
        (m : List (String × JValue)) (e : String),
        buildUpdateProjectItem (some m) = Except.error e →
        updateProjectItemPlan owner ownerType projectNumber itemID (some (JValue.obj m))
          = HandlerOutcome.rejected e) := by
  refine ⟨?_, ?_, ?_, ?_, ?_, rfl, rfl, rfl, rfl, rfl, ?_⟩
  · intro m
    constructor
    · rintro ⟨p, hp⟩
      cases hid : m.lookup "id" with
      | none => simp [buildUpdateProjectItem, hid] at hp
      | some x =>
        cases x with
        | num n =>
          cases hval : m.lookup "value" with
          | none => simp [buildUpdateProjectItem, hid, hval] at hp
          | some v => exact ⟨⟨n, rfl⟩, ⟨v, rfl⟩⟩
        | null => simp [buildUpdateProjectItem, hid] at hp
        | bool b => simp [buildUpdateProjectItem, hid] at hp
        | str s => simp [buildUpdateProjectItem, hid] at hp
        | arr elems => simp [buildUpdateProjectItem, hid] at hp
        | obj fs => simp [buildUpdateProjectItem, hid] at hp
    · rintro ⟨⟨n, hid⟩, v, hval⟩
      refine ⟨{ ID := n, Value := v }, ?_⟩
      simp [buildUpdateProjectItem, hid, hval]
  · intro m n v hid hval
    simp [buildUpdateProjectItem, hid, hval]
  · intro m hid
    simp [buildUpdateProjectItem, hid]
  · intro m x hid hnn
    cases x with
    | num n => exact absurd rfl (hnn n)
    | null => simp [buildUpdateProjectItem, hid]
    | bool b => simp [buildUpdateProjectItem, hid]
    | str s => simp [buildUpdateProjectItem, hid]
    | arr elems => simp [buildUpdateProjectItem, hid]
    | obj fs => simp [buildUpdateProjectItem, hid]
  · intro m n hid hval
    simp [buildUpdateProjectItem, hid, hval]
  · intro owner ownerType projectNumber itemID m e h
    simp [updateProjectItemPlan, h]

/-- Witness for C4 at concrete inputs: a well-formed map builds the typed
payload, and a map missing `value` makes the handler reject before any
request is issued. -/
theorem claim_C4_update_payload_validation_witness :
    buildUpdateProjectItem (some [("id", JValue.num 5), ("value", JValue.bool true)])
      = Except.ok { ID := 5, Value := JValue.bool true }
    ∧ updateProjectItemPlan "octo" "org" 1 2 (some (JValue.obj [("id", JValue.num 5)]))
      = HandlerOutcome.rejected "updated_field.value is required" :=
  ⟨claim_C4_update_payload_validation.2.1 _ 5 (JValue.bool true) rfl rfl,
   claim_C4_update_payload_validation.2.2.2.2.2.2.2.2.2.2 "octo" "org" 1 2
     [("id", JValue.num 5)] "updated_field.value is required" rfl⟩

/-- C8: for every successfully validated update payload, the planned
update-item request body is the `fields` list containing exactly that one
payload, serialized as an object with its `id` and `value`. -/
theorem claim_C8_singleton_batch :
    ∀ (owner ownerType : String) (projectNumber itemID : Int)
      (m : List (String × JValue)) (p : updateProjectItem),
      buildUpdateProjectItem (some m) = Except.ok p →
      updateProjectItemPlan owner ownerType projectNumber itemID (some (JValue.obj m))
        = HandlerOutcome.issued
            { method := "PATCH"
              url := projectItemURL ownerType owner projectNumber itemID
              body := some (JValue.obj [("fields", JValue.arr
                [JValue.obj [("id", JValue.num p.ID), ("value", p.Value)]])]) } := by
  intro owner ownerType projectNumber itemID m p h
  simp [updateProjectItemPlan, h, marshalUpdatePayload, marshalUpdateProjectItem]

/-- Witness for C8 at a concrete input: the body wraps the single validated
payload as the sole element of the `fields` list. -/
theorem claim_C8_singleton_batch_witness :
    updateProjectItemPlan "octo" "org" 3 4
        (some (JValue.obj [("id", JValue.num 9), ("value", JValue.null)]))
      = HandlerOutcome.issued
          { method := "PATCH"
            url := projectItemURL "org" "octo" 3 4
            body := some (JValue.obj [("fields", JValue.arr
              [JValue.obj [("id", JValue.num 9), ("value", JValue.null)]])]) } :=
  claim_C8_singleton_batch "octo" "org" 3 4
    [("id", JValue.num 9), ("value", JValue.null)] { ID := 9, Value := JValue.null } rfl

/-- C9: `item_type = issue` plans a request whose body type field is exactly
`Issue`, `item_type = pull_request` exactly `PullRequest`, and any other
item type is rejected with a parameter error before any request is
issued. -/
theorem claim_C9_add_item_type :
    (∀ (owner ownerType : String) (projectNumber itemID : Int),
        addProjectItemPlan owner ownerType projectNumber itemID "issue"
          = HandlerOutcome.issued
              { method := "POST"
                url := projectItemsURL ownerType owner projectNumber
                body := some (marshalNewProjectItem { ID := itemID, Typ := "Issue" }) })
    ∧ (∀ (owner ownerType : String) (projectNumber itemID : Int),
        addProjectItemPlan owner ownerType projectNumber itemID "pull_request"
          = HandlerOutcome.issued
              { method := "POST"
                url := projectItemsURL ownerType owner projectNumber
                body := some (marshalNewProjectItem { ID := itemID, Typ := "PullRequest" }) })
    ∧ (∀ item : newProjectItem, item.Typ ≠ "" →
        marshalNewProjectItem item = JValue.obj
          ((if item.ID = 0 then [] else [("id", JValue.num item.ID)])
            ++ [("type", JValue.str item.Typ)]))
    ∧ (∀ (owner ownerType : String) (projectNumber itemID : Int) (t : String),
        t ≠ "issue" → t ≠ "pull_request" →
        addProjectItemPlan owner ownerType projectNumber itemID t
          = HandlerOutcome.rejected "item_type must be either 'issue' or 'pull_request'") := by
  refine ⟨fun _ _ _ _ => rfl, fun _ _ _ _ => rfl, ?_, ?_⟩
  · intro item h
    simp [marshalNewProjectItem, h]
  · intro owner ownerType projectNumber itemID t h1 h2
    simp [addProjectItemPlan, h1, h2]

/-- Witness for C9 at concrete inputs: the marshalled body carries the
`type` key with value `Issue`, and an invalid item type is rejected. -/
theorem claim_C9_add_item_type_witness :
    marshalNewProjectItem { ID := 42, Typ := "Issue" }
      = JValue.obj ((if (42 : Int) = 0 then [] else [("id", JValue.num 42)])
          ++ [("type", JValue.str "Issue")])
    ∧ addProjectItemPlan "octo" "org" 7 42 "draft"
      = HandlerOutcome.rejected "item_type must be either 'issue' or 'pull_request'" :=
  ⟨claim_C9_add_item_type.2.2.1 { ID := 42, Typ := "Issue" } (by decide),
   claim_C9_add_item_type.2.2.2 "octo" "org" 7 42 "draft" (by decide) (by decide)⟩

/-- C5 counterexample: the items-list handler performs no specific-status
check, so it yields a success result under two different statuses (200 and
226, both 2xx); hence there is no expected success status under which alone
a success result is produced, as the claim asserts for the items-list
operation. -/
theorem claim_C5_list_two_success_statuses :
    listProjectItemsResult { StatusCode := 200, Body := "", After := "", Before := "" } "ok"
        = ToolResult.textResult "ok"
    ∧ listProjectItemsResult { StatusCode := 226, Body := "", After := "", Before := "" } "ok"
        = ToolResult.textResult "ok"
    ∧ (200 : Nat) ≠ 226 :=
  ⟨rfl, rfl, by decide⟩

/-- C5 (amended): for add (201), update (200) and delete (204), a response
with any other status is a failure whose text includes the response body,
even when the transport raised no error, and a success result is produced
exactly under the expected status; the items-list operation has no specific
expected status: it succeeds exactly under a 2xx status and any non-2xx
response is a failure whose text includes the body. -/
theorem claim_C5_expected_status :
    (∀ (resp : GHResponse) (s : String),
        addProjectItemResult resp s = ToolResult.textResult s ↔ resp.StatusCode = 201)
    ∧ (∀ (resp : GHResponse) (s : String), resp.StatusCode ≠ 201 →
        ∃ m, addProjectItemResult resp s = ToolResult.errorResult m
          ∧ ∃ p, m = p ++ resp.Body)
    ∧ (∀ (resp : GHResponse) (s : String),
        updateProjectItemResult resp s = ToolResult.textResult s ↔ resp.StatusCode = 200)
    ∧ (∀ (resp : GHResponse) (s : String), resp.StatusCode ≠ 200 →
        ∃ m, updateProjectItemResult resp s = ToolResult.errorResult m
          ∧ ∃ p, m = p ++ resp.Body)
    ∧ (∀ resp : GHResponse,
        deleteProjectItemResult resp = ToolResult.textResult "project item successfully deleted"
          ↔ resp.StatusCode = 204)
    ∧ (∀ resp : GHResponse, resp.StatusCode ≠ 204 →
        ∃ m, deleteProjectItemResult resp = ToolResult.errorResult m
          ∧ ∃ p, m = p ++ resp.Body)
    ∧ (∀ (resp : GHResponse) (s : String),
        listProjectItemsResult resp s = ToolResult.textResult s ↔
          (200 ≤ resp.StatusCode ∧ resp.StatusCode ≤ 299))
    ∧ (∀ (resp : GHResponse) (s : String),
        ¬(200 ≤ resp.StatusCode ∧ resp.StatusCode ≤ 299) →
        ∃ m, listProjectItemsResult resp s = ToolResult.errorResult m
          ∧ ∃ p, m = p ++ resp.Body) := by
  refine ⟨?_, ?_, ?_, ?_, ?_, ?_, ?_, ?_⟩
  · intro resp s
    by_cases h2 : resp.StatusCode = 201
    · simp [addProjectItemResult, responseIsError, h2]
    · simp only [addProjectItemResult, responseIsError, apiErrorResult]
      split_ifs with h1
      · simp [h2]
      · simp [h2]
  · intro resp s hne
    simp only [addProjectItemResult, responseIsError, apiErrorResult]
    split_ifs with h1
    · exact ⟨_, rfl, _, rfl⟩
    · exact ⟨_, rfl, _, rfl⟩
  · intro resp s
    by_cases h2 : resp.StatusCode = 200
    · simp [updateProjectItemResult, responseIsError, h2]
    · simp only [updateProjectItemResult, responseIsError, apiErrorResult]
      split_ifs with h1
      · simp [h2]
      · simp [h2]
  · intro resp s hne
    simp only [updateProjectItemResult, responseIsError, apiErrorResult]
    split_ifs with h1
    · exact ⟨_, rfl, _, rfl⟩
    · exact ⟨_, rfl, _, rfl⟩
  · intro resp
    by_cases h2 : resp.StatusCode = 204
    · simp [deleteProjectItemResult, responseIsError, h2]
    · simp only [deleteProjectItemResult, responseIsError, apiErrorResult]
      split_ifs with h1
      · simp [h2]
      · simp [h2]
  · intro resp hne
    simp only [deleteProjectItemResult, responseIsError, apiErrorResult]
    split_ifs with h1
    · exact ⟨_, rfl, _, rfl⟩
    · exact ⟨_, rfl, _, rfl⟩
  · intro resp s
    simp only [listProjectItemsResult, responseIsError, apiErrorResult]
    split_ifs with h1
    · constructor
      · intro h; cases h
      · intro hcc
        exfalso
        simp at h1
        omega
    · simp at h1
      simp [h1]
  · intro resp s hcc
    simp only [listProjectItemsResult, responseIsError, apiErrorResult]
    split_ifs with h1
    · exact ⟨_, rfl, _, rfl⟩
    · exfalso
      simp at h1
      exact hcc h1

/-- Witness for C5 at concrete inputs: a 400 add response fails with the
body in the failure text, and a 204 delete response succeeds. -/
theorem claim_C5_expected_status_witness :
    (∃ m, addProjectItemResult { StatusCode := 400, Body := "boom", After := "", Before := "" } "x"
        = ToolResult.errorResult m ∧ ∃ p, m = p ++ "boom")
    ∧ deleteProjectItemResult { StatusCode := 204, Body := "", After := "", Before := "" }
        = ToolResult.textResult "project item successfully deleted" :=
  ⟨claim_C5_expected_status.2.1 { StatusCode := 400, Body := "boom", After := "", Before := "" }
      "x" (by decide),
   (claim_C5_expected_status.2.2.2.2.1 { StatusCode := 204, Body := "", After := "", Before := "" }).mpr
      rfl⟩

/-- C6: an option group whose values are all empty or default contributes
none of its query keys; with every group defaulted the encoded values are
empty and the request target carries an empty query. -/
theorem claim_C6_empty_groups_omitted :
    (∀ o : listProjectItemsOptions,
        (o.PerPage = 0 → "per_page" ∉ (listProjectItemsQueryValues o).map Prod.fst)
        ∧ (o.After = "" → "after" ∉ (listProjectItemsQueryValues o).map Prod.fst)
        ∧ (o.Before = "" → "before" ∉ (listProjectItemsQueryValues o).map Prod.fst)
        ∧ (o.Query = "" → "q" ∉ (listProjectItemsQueryValues o).map Prod.fst)
        ∧ (o.Fields = "" → "fields" ∉ (listProjectItemsQueryValues o).map Prod.fst))
    ∧ (∀ o : listProjectItemsOptions,
        o.PerPage = 0 → o.After = "" → o.Before = "" → o.Query = "" → o.Fields = "" →
        listProjectItemsQueryValues o = [])
    ∧ (∀ (s : String) (u : URLRef) (o : listProjectItemsOptions),
        parseURL s = some u →
        o.PerPage = 0 → o.After = "" → o.Before = "" → o.Query = "" → o.Fields = "" →
        addOptions s (some o) = Except.ok (urlRefToString
          { path := u.path, rawQuery := "", fragment := u.fragment })) := by
  have hvals : ∀ o : listProjectItemsOptions,
      o.PerPage = 0 → o.After = "" → o.Before = "" → o.Query = "" → o.Fields = "" →
      listProjectItemsQueryValues o = [] := by
    intro o h1 h2 h3 h4 h5
    obtain ⟨⟨pp, pa, pb⟩, ⟨qq⟩, ⟨ff⟩⟩ := o
    simp only [listProjectItemsQueryValues, paginationQueryValues, filterQueryValues,
      fieldSelectionQueryValues] at h1 h2 h3 h4 h5 ⊢
    simp [h1, h2, h3, h4, h5]
  refine ⟨?_, hvals, ?_⟩
  · intro o
    obtain ⟨⟨pp, pa, pb⟩, ⟨qq⟩, ⟨ff⟩⟩ := o
    refine ⟨?_, ?_, ?_, ?_, ?_⟩ <;> intro h <;>
      simp only [listProjectItemsQueryValues, paginationQueryValues, filterQueryValues,
        fieldSelectionQueryValues] at h ⊢ <;>
      simp only [h] <;>
      split_ifs <;> simp
  · intro s u o hparse h1 h2 h3 h4 h5
    rw [addOptions_parse_some s u o hparse]
    have : QueryEncodable.queryValues o = listProjectItemsQueryValues o := rfl
    rw [this, hvals o h1 h2 h3 h4 h5]
    rfl

/-- Witness for C6 at concrete inputs: with all groups defaulted, the base
path keeps its path portion and gets an empty query (the stale query of the
base path is dropped). -/
theorem claim_C6_empty_groups_omitted_witness :
    addOptions "orgs/octo/projectsV2/5/items?stale=1"
        (some ({ PerPage := 0, After := "", Before := "", Query := "", Fields := "" }
          : listProjectItemsOptions))
      = Except.ok (urlRefToString
          { path := "orgs/octo/projectsV2/5/items", rawQuery := "", fragment := "" }) :=
  claim_C6_empty_groups_omitted.2.2 "orgs/octo/projectsV2/5/items?stale=1"
    { path := "orgs/octo/projectsV2/5/items", rawQuery := "stale=1", fragment := "" }
    { PerPage := 0, After := "", Before := "", Query := "", Fields := "" }
    rfl rfl rfl rfl rfl rfl

/-- C10: for every parseable base path, `addOptions` replaces the target's
entire query string with the encoding of the supplied option values — the
path portion is preserved and any query already present in the base path is
discarded — and a nil options pointer returns the base path unchanged. -/
theorem claim_C10_query_replaced :
    (∀ s : String, addOptions s (none : Option listProjectItemsOptions) = Except.ok s)
    ∧ (∀ (s : String) (u : URLRef) (o : listProjectItemsOptions),
        parseURL s = some u →
        addOptions s (some o) = Except.ok (urlRefToString
          { path := u.path
            rawQuery := urlValuesEncode (listProjectItemsQueryValues o)
            fragment := u.fragment }))
    ∧ (∀ (s₁ s₂ : String) (u₁ u₂ : URLRef) (o : listProjectItemsOptions),
        parseURL s₁ = some u₁ → parseURL s₂ = some u₂ →
        u₁.path = u₂.path → u₁.fragment = u₂.fragment →
        addOptions s₁ (some o) = addOptions s₂ (some o)) := by
  refine ⟨fun s => rfl, ?_, ?_⟩
  · intro s u o h
    exact addOptions_parse_some s u o h
  · intro s₁ s₂ u₁ u₂ o h₁ h₂ hp hf
    rw [addOptions_parse_some s₁ u₁ o h₁, addOptions_parse_some s₂ u₂ o h₂, hp, hf]

/-- Witness for C10 at concrete inputs: the stale query of the base path is
discarded and replaced by the encoded options, and two base paths differing
only in their old query give the same target. -/
theorem claim_C10_query_replaced_witness :
    addOptions "orgs/octo/projectsV2/5/items?stale=1"
        (some ({ PerPage := 50, After := "c1", Before := "", Query := "", Fields := "" }
          : listProjectItemsOptions))
      = Except.ok (urlRefToString
          { path := "orgs/octo/projectsV2/5/items"
            rawQuery := urlValuesEncode (listProjectItemsQueryValues
              { PerPage := 50, After := "c1", Before := "", Query := "", Fields := "" })
            fragment := "" })
    ∧ addOptions "orgs/octo/projectsV2/5/items?stale=1"
        (some ({ PerPage := 50, After := "c1", Before := "", Query := "", Fields := "" }
          : listProjectItemsOptions))
      = addOptions "orgs/octo/projectsV2/5/items?other=2"
        (some ({ PerPage := 50, After := "c1", Before := "", Query := "", Fields := "" }
          : listProjectItemsOptions)) :=
  ⟨claim_C10_query_replaced.2.1 "orgs/octo/projectsV2/5/items?stale=1"
      { path := "orgs/octo/projectsV2/5/items", rawQuery := "stale=1", fragment := "" }
      { PerPage := 50, After := "c1", Before := "", Query := "", Fields := "" } rfl,
   claim_C10_query_replaced.2.2 "orgs/octo/projectsV2/5/items?stale=1"
      "orgs/octo/projectsV2/5/items?other=2"
      { path := "orgs/octo/projectsV2/5/items", rawQuery := "stale=1", fragment := "" }
      { path := "orgs/octo/projectsV2/5/items", rawQuery := "other=2", fragment := "" }
      { PerPage := 50, After := "c1", Before := "", Query := "", Fields := "" }
      rfl rfl rfl rfl⟩

end Projects
